import Mathlib

/-!
Verification development for the request-signing core of the `xapi` client
library (Go). The Go sources are shallowly embedded: pure functions become
Lean functions over `Nat`/`Int`/`ℚ`/`ℝ`, the stateful generator becomes
explicit state passing over a `GenState` record, fallible code returns
`Except`/`Option`, and calls into external libraries (HTTP, `regexp`,
`x/net/html`, `crypto/sha256`, `crypto/aes`+GCM, `crypto/rand`, the clock)
are parameters of an environment record, since their code is not part of
this repository. Machine integers are modelled with `Int`/`Nat` using
`Int.tdiv`/`Int.fdiv`/`Int.emod` where Go's truncating division, arithmetic
shift and masking matter. Go `float64` arithmetic in the animation helpers
is modelled over `ℚ` (exact arithmetic; the helpers only use +, -, *, /,
floor, and half-away-from-zero rounding on small values), and the
rotation-to-matrix conversion over `ℝ`.
-/

/- ===================== Base64 (Go encoding/base64 StdEncoding) =====================
The repository calls Go's standard `base64.StdEncoding` (RFC 4648 with `=`
padding). The encoder/decoder below model that standard encoding at the
byte level: 3 input bytes become 4 alphabet characters; a trailing group of
1 or 2 bytes is encoded with 2 or 1 `=` padding characters. -/

/-- The RFC 4648 standard base64 alphabet used by Go's `base64.StdEncoding`. -/
def b64Alphabet : List Char :=
  ("ABCDEFGHIJKLMNOPQRSTUVWXYZabcdefghijklmnopqrstuvwxyz0123456789+/").toList

/-- Character for a 6-bit value (0..63). -/
def b64Char (n : Nat) : Char := b64Alphabet.getD n '?'

/-- Inverse lookup of `b64Char`; `none` for characters outside the alphabet
(in particular for the padding character). -/
def b64DecChar (c : Char) : Option Nat := b64Alphabet.findIdx? (fun x => x = c)

/-- RFC 4648 standard base64 of a byte sequence, with `=` padding, as
produced by Go's `base64.StdEncoding.EncodeToString`. Bit operations are
written with `/`, `%`, `*`, `+` (e.g. `b >> 2 = b / 4`, `b & 3 = b % 4`),
which agree with Go on bytes. -/
def b64EncodeBytes : List Nat → List Char
  | [] => []
  | [b0] =>
      [b64Char (b0 / 4), b64Char (b0 % 4 * 16), '=', '=']
  | [b0, b1] =>
      [b64Char (b0 / 4), b64Char (b0 % 4 * 16 + b1 / 16), b64Char (b1 % 16 * 4), '=']
  | b0 :: b1 :: b2 :: rest =>
      b64Char (b0 / 4) :: b64Char (b0 % 4 * 16 + b1 / 16) ::
      b64Char (b1 % 16 * 4 + b2 / 64) :: b64Char (b2 % 64) :: b64EncodeBytes rest

/-- Standard base64 decoding of a padded character stream, as performed by
Go's `base64.StdEncoding.DecodeString`: groups of 4 characters yield 3
bytes, `=` padding may only close the final group. -/
def b64DecodeChars : List Char → Option (List Nat)
  | [] => some []
  | c0 :: c1 :: c2 :: c3 :: rest =>
      match b64DecChar c0, b64DecChar c1 with
      | some x0, some x1 =>
          if c2 = '=' then
            if c3 = '=' ∧ rest = [] then some [x0 * 4 + x1 / 16] else none
          else
            match b64DecChar c2 with
            | some x2 =>
                if c3 = '=' then
                  if rest = [] then some [x0 * 4 + x1 / 16, x1 % 16 * 16 + x2 / 4] else none
                else
                  match b64DecChar c3 with
                  | some x3 =>
                      match b64DecodeChars rest with
                      | some tail =>
                          some ((x0 * 4 + x1 / 16) :: (x1 % 16 * 16 + x2 / 4) ::
                                (x2 % 4 * 64 + x3) :: tail)
                      | none => none
                  | none => none
            | none => none
      | _, _ => none
  | _ => none

/-- The non-padding part of `b64EncodeBytes` (helper for reasoning about
padding removal; the source never calls this). -/
def b64EncodeNoPad : List Nat → List Char
  | [] => []
  | [b0] =>
      [b64Char (b0 / 4), b64Char (b0 % 4 * 16)]
  | [b0, b1] =>
      [b64Char (b0 / 4), b64Char (b0 % 4 * 16 + b1 / 16), b64Char (b1 % 16 * 4)]
  | b0 :: b1 :: b2 :: rest =>
      b64Char (b0 / 4) :: b64Char (b0 % 4 * 16 + b1 / 16) ::
      b64Char (b1 % 16 * 4 + b2 / 64) :: b64Char (b2 % 64) :: b64EncodeNoPad rest

/-- Number of `=` padding characters `b64EncodeBytes` appends. -/
def b64PadLen : List Nat → Nat
  | [] => 0
  | [_] => 2
  | [_, _] => 1
  | _ :: _ :: _ :: rest => b64PadLen rest

/-- From `transaction.go` `trimBase64Padding`: strip trailing `=` characters
(the source loops removing the last character while it is `=`; on lists this
is dropping the longest `=`-suffix). -/
def trimBase64Padding (s : List Char) : List Char :=
  ((s.reverse).dropWhile (fun c => c = '=')).reverse

/-- Modelled from the spec: re-adding base64 `=` padding to an unpadded
string, `transaction_id + "=" * pad`, where `pad` brings the length to a
multiple of 4. -/
def b64Pad (s : List Char) : List Char :=
  s ++ List.replicate ((4 - s.length % 4) % 4) '='

/- ===================== Transaction ID builder (transaction.go) ===================== -/

/-- Constant from `transaction.go`. -/
def DefaultKeyword : String := "obfiowerehiring"

/-- Constant from `transaction.go` (`AdditionalRandomNumber`). -/
def AdditionalRandomNumber : Nat := 3

/-- Constant from `transaction.go` (`TwitterEpoch`, seconds). -/
def TwitterEpoch : Int := 1682924400

/-- `timeNow := int64((nowMicro - epochMicro) / 1000000)`; Go's `/` on
`int64` truncates toward zero, i.e. `Int.tdiv`. -/
def timeNowOf (nowMicro : Int) : Int :=
  Int.tdiv (nowMicro - TwitterEpoch * 1000000) 1000000

/-- `timeNowBytes[i] = byte((timeNow >> (i*8)) & 0xFF)`: Go's `>>` on int64
is an arithmetic shift (floor division by a power of two) and `& 0xFF`
extracts the low byte (nonnegative remainder mod 256). -/
def timeByte (t : Int) (i : Nat) : Nat :=
  ((Int.fdiv t (2 ^ (8 * i))) % 256).toNat

/-- The string hashed in `generateUniqueTransactionID`:
`fmt.Sprintf("%s!%s!%d%s%s", method, path, timeNow, DefaultKeyword, animationKey)`. -/
def txnHashString (method path : String) (timeNow : Int) (animationKey : String) : String :=
  method ++ "!" ++ path ++ "!" ++ toString timeNow ++ DefaultKeyword ++ animationKey

/-- The pre-mask byte array built in `generateUniqueTransactionID`:
key bytes (each Go-converted `byte(kb)`, i.e. the low 8 bits), then the
4 little-endian time bytes, then the first 16 bytes of the SHA-256 digest,
then the constant byte 3. The SHA-256 digest function (Go `crypto/sha256`,
external) is a parameter `sha` returning the 32 digest bytes. -/
def txnPayload (sha : String → List Nat) (method path : String) (nowMicro : Int)
    (animationKey : String) (keyBytes : List Int) : List Nat :=
  let timeNow := timeNowOf nowMicro
  keyBytes.map (fun kb => (kb % 256).toNat)
    ++ (List.range 4).map (timeByte timeNow)
    ++ (sha (txnHashString method path timeNow animationKey)).take 16
    ++ [AdditionalRandomNumber]

/-- The XOR-masked byte array: `[r] ++ [b ^ r for b in payload]` where `r`
is the random byte read from the OS RNG. -/
def txnMaskedBytes (sha : String → List Nat) (method path : String) (nowMicro : Int)
    (animationKey : String) (keyBytes : List Int) (r : Nat) : List Nat :=
  r :: (txnPayload sha method path nowMicro animationKey keyBytes).map (fun b => b ^^^ r)

/-- `generateUniqueTransactionID` (transaction.go, lines 282-331), with the
clock, RNG byte and SHA-256 as parameters: base64-encode the masked bytes
and strip the `=` padding. -/
def generateUniqueTransactionID (sha : String → List Nat) (method path : String)
    (nowMicro : Int) (animationKey : String) (keyBytes : List Int) (r : Nat) : String :=
  String.mk (trimBase64Padding (b64EncodeBytes
    (txnMaskedBytes sha method path nowMicro animationKey keyBytes r)))

/- ===================== Animation numeric helpers (transaction.go) =====================
Go `float64` arithmetic is modelled over `ℚ`. -/

/-- Truncation toward zero (Go `math.Trunc`) on rationals. -/
def ratTrunc (q : ℚ) : Int := if q < 0 then ⌈q⌉ else ⌊q⌋

/-- Go `math.Round`: round half away from zero. -/
def mathRound (q : ℚ) : Int := if q < 0 then -⌊-q + 1/2⌋ else ⌊q + 1/2⌋

/-- `jsRound` from `transaction.go`: like `math.Round` except that an exact
fractional part of `-0.5` rounds up (`math.Ceil`), matching JavaScript. -/
def jsRound (q : ℚ) : Int :=
  if q - ratTrunc q = -(1/2) then ⌈q⌉ else mathRound q

/-- `solve` from `transaction.go`: scale into `[minVal, maxVal]` and either
floor (rounding = true) or round to two decimals. -/
def solve (value minVal maxVal : ℚ) (rounding : Bool) : ℚ :=
  let result := value * (maxVal - minVal) / 255 + minVal
  if rounding then (⌊result⌋ : ℚ) else (mathRound (result * 100) : ℚ) / 100

/-- `isOdd` from `transaction.go`: -1.0 when the index is odd (Go
`num % 2 == 1`), else 0.0. -/
def isOdd (num : Int) : ℚ := if num % 2 = 1 then -1 else 0

/-- `interpolate` from `transaction.go`: elementwise
`from[i] + (to[i] - from[i])*t`, then clamp with
`math.Max(0, math.Min(255, _))`. The source indexes `to[i]` for every index
of `from` (panicking if `to` is shorter); it is modelled on equal-length
lists via `zipWith`. -/
def interpolate (fromL toL : List ℚ) (t : ℚ) : List ℚ :=
  List.zipWith (fun a b => max 0 (min 255 (a + (b - a) * t))) fromL toL

/-- The padding loop at the top of `animate`: right-pad the frame row with
zeros to at least 15 entries. -/
def padTo15 (row : List Int) : List Int :=
  row ++ List.replicate (15 - row.length) 0

/-- The rotation path through `animate` (transaction.go, lines 612-643):
`fromRotation = [0.0]`, `toRotation = [solve(frameRow[6], 60.0, 360.0, true)]`,
`rotation = interpolate(fromRotation, toRotation, val)` where `val` is the
bezier value. This is the exact sub-computation of `animate` that produces
the rotation handed to `convertRotationToMatrix`. -/
def animateRotationPart (frameRow : List Int) (v : ℚ) : List ℚ :=
  let row := padTo15 frameRow
  let fromRotation : List ℚ := [0]
  let toRotation : List ℚ := [solve ((row.getD 6 0 : Int) : ℚ) 60 360 true]
  interpolate fromRotation toRotation v

/-- `cubicCalculate` from `transaction.go`. -/
def cubicCalculate (a b m : ℚ) : ℚ :=
  3 * a * (1 - m) * (1 - m) * m + 3 * b * (1 - m) * m * m + m * m * m

/-- The bisection loop of `evaluateCubicBezier`. The Go loop
`for startValue < endValue` terminates only through float64 precision, so
the exact-arithmetic model carries explicit `fuel`; when fuel runs out it
returns `cubicCalculate(y1, y2, mid)` exactly as the code after the loop
does. -/
def bezierLoop (x1 y1 x2 y2 t : ℚ) : Nat → ℚ → ℚ → ℚ → ℚ
  | 0, _, _, mid => cubicCalculate y1 y2 mid
  | fuel + 1, startValue, endValue, mid =>
      if startValue < endValue then
        let m := (startValue + endValue) / 2
        let xEst := cubicCalculate x1 x2 m
        if |t - xEst| < 1/100000 then cubicCalculate y1 y2 m
        else if xEst < t then bezierLoop x1 y1 x2 y2 t fuel m endValue m
        else bezierLoop x1 y1 x2 y2 t fuel startValue m m
      else cubicCalculate y1 y2 mid

/-- `evaluateCubicBezier` from `transaction.go` (lines 850-895). The
`t <= 0`, `t >= 1` and short-input branches are exact; the interior case
runs the bisection loop with explicit fuel. -/
def evaluateCubicBezier (fuel : Nat) (controlPoints : List ℚ) (t : ℚ) : ℚ :=
  if controlPoints.length < 4 then t
  else if t ≤ 0 then
    let startGradient :=
      if 0 < controlPoints.getD 0 0 then controlPoints.getD 1 0 / controlPoints.getD 0 0
      else if controlPoints.getD 1 0 = 0 ∧ 0 < controlPoints.getD 2 0 then
        controlPoints.getD 3 0 / controlPoints.getD 2 0
      else 0
    startGradient * t
  else if 1 ≤ t then
    let endGradient :=
      if controlPoints.getD 2 0 < 1 then
        (controlPoints.getD 3 0 - 1) / (controlPoints.getD 2 0 - 1)
      else if controlPoints.getD 2 0 = 1 ∧ controlPoints.getD 0 0 < 1 then
        (controlPoints.getD 1 0 - 1) / (controlPoints.getD 0 0 - 1)
      else 0
    1 + endGradient * (t - 1)
  else bezierLoop (controlPoints.getD 0 0) (controlPoints.getD 1 0)
    (controlPoints.getD 2 0) (controlPoints.getD 3 0) t fuel 0 1 0

/-- `convertRotationToMatrix` from `transaction.go` (lines 783-791):
`radians = angle * π / 180`, matrix `[cos, sin, -sin, cos]`. -/
noncomputable def convertRotationToMatrix (angle : ℝ) : List ℝ :=
  let radians := angle * Real.pi / 180
  let c := Real.cos radians
  let s := Real.sin radians
  [c, s, -s, c]

/- ===================== Generator state machine (transaction.go) ===================== -/

/-- Cache entry (`CacheEntry` in transaction.go): creation and expiration
instants on an abstract integer timeline. The `Data interface{}` payload is
duplicated from the core fields it caches and is never read by any claim,
so it is not modelled separately. -/
structure CacheEntryT where
  CreatedAt : Int
  ExpiresAt : Int
deriving DecidableEq, Repr

/-- The configuration fields of `ProductionConfig` (config.go) used by the
generator. There is no separate verification-key lifetime in the source:
both `initialize` and `updateCachesWithFreshData` give the verification
cache `HTMLDataCacheLifetime`. -/
structure ProdConfigT where
  HTMLDataCacheLifetime : Int
  AnimationKeyLifetime : Int
deriving DecidableEq, Repr

/-- One hour, on the same abstract timeline (seconds). -/
def oneHour : Int := 3600

/-- The mutable fields of `TransactionGenerator` read or written by the
modelled operations. `rowIndex` and the indices are parsed 1-2 digit
decimals, hence `Nat`. Metrics and mutexes are omitted: no claim reads
them, and the embedding is sequential. -/
structure GenState where
  initialized : Bool := false
  htmlDataCache : Option CacheEntryT := none
  animationCache : Option CacheEntryT := none
  verificationCache : Option CacheEntryT := none
  homePageHTML : String := ""
  onDemandFileHTML : String := ""
  keyBytes : List Int := []
  animationKey : String := ""
  rowIndex : Nat := 0
  keyBytesIndices : List Nat := []
  key : String := ""
  lastRefresh : Int := 0
deriving DecidableEq, Repr

/-- Environment of external effects consumed by the generator: HTTP fetch
results, the `regexp` and `x/net/html` library outputs on given documents,
the float `animate` computation (whose interior is analysed separately via
`interpolate` / `evaluateCubicBezier` / `convertRotationToMatrix`), the
SHA-256 digest, the OS RNG byte, and the clock. -/
structure TxEnv where
  homeFetch : Except String String
  ondemandMatch : String → Option String
  ondemandFetch : String → Except String String
  indicesMatches : String → List Nat
  metaKey : String → Option String
  frameRows : String → Int → Option (List (List Int))
  animateFn : List Int → ℚ → String
  sha : String → List Nat
  randRead : Except String Nat
  nowMicro : Int

/-- `needsRefresh` (transaction.go, lines 171-195): true when never
initialized, or when `now.After(ExpiresAt)` (strict) holds for some non-nil
cache entry. -/
def needsRefresh (now : Int) (s : GenState) : Bool :=
  if !s.initialized then true
  else
    (match s.htmlDataCache with
     | some c => decide (c.ExpiresAt < now)
     | none => false) ||
    (match s.animationCache with
     | some c => decide (c.ExpiresAt < now)
     | none => false) ||
    (match s.verificationCache with
     | some c => decide (c.ExpiresAt < now)
     | none => false)

/-- `fetchTwitterData` (transaction.go, lines 336-389). Returns the state
after its in-place mutations together with an error when one occurred. Note
the source assigns `tg.homePageHTML` as soon as the home page body is read,
before the ondemand marker is searched for. -/
def fetchTwitterData (env : TxEnv) (s : GenState) : GenState × Option String :=
  match env.homeFetch with
  | .error e => (s, some ("failed to fetch home page: " ++ e))
  | .ok home =>
      let s1 := { s with homePageHTML := home }
      match env.ondemandMatch home with
      | none => (s1, some ("ondemand file URL not found in home page"))
      | some fileID =>
          match env.ondemandFetch fileID with
          | .error e => (s1, some ("failed to fetch ondemand file: " ++ e))
          | .ok od => ({ s1 with onDemandFileHTML := od }, none)

/-- `extractIndices` (transaction.go, lines 412-437): all regex matches are
parsed (1-2 digit integers, so `Atoi` cannot fail); the first becomes
`rowIndex`, the rest `keyBytesIndices`; mutation happens only on success. -/
def extractIndices (env : TxEnv) (s : GenState) : GenState × Option String :=
  match env.indicesMatches s.onDemandFileHTML with
  | [] => (s, some ("no indices found in ondemand file"))
  | i :: rest => ({ s with rowIndex := i, keyBytesIndices := rest }, none)

/-- `extractKey` (transaction.go, lines 440-465): find the
twitter-site-verification meta content (`x/net/html` traversal, external),
assign `tg.key`, then base64-decode it into `tg.keyBytes`. Note `tg.key` is
assigned before the decode, so a decode failure leaves `key` updated but
`keyBytes` stale. `html.Parse` on an in-memory string cannot fail. -/
def extractKey (env : TxEnv) (s : GenState) : GenState × Option String :=
  match env.metaKey s.homePageHTML with
  | none => (s, some ("twitter-site-verification meta tag not found"))
  | some k =>
      let s1 := { s with key := k }
      match b64DecodeChars k.toList with
      | none => (s1, some ("failed to decode key"))
      | some decoded => ({ s1 with keyBytes := decoded.map Int.ofNat }, none)

/-- `extractAnimationFrames` (transaction.go, lines 537-609): guard
`len(keyBytes) <= 5`, select frame `keyBytes[5] % 4`, then the regex/path
parsing (external `regexp`) yields the integer rows; empty row sets are
errors. -/
def extractAnimationFrames (env : TxEnv) (s : GenState) :
    Except String (List (List Int)) :=
  if s.keyBytes.length ≤ 5 then .error ("key_bytes too short for frame selection")
  else
    match env.frameRows s.homePageHTML ((s.keyBytes.getD 5 0) % 4) with
    | none => .error ("frame extraction failed")
    | some rows =>
        if rows.isEmpty then .error ("no valid rows extracted") else .ok rows

/-- `generateAnimationKey` (transaction.go, lines 494-534): frame
extraction, row and frame-time selection (Go `%` agrees with `Int.emod` on
the nonnegative key bytes), then `animate` (a parameter of the
environment). Only `animationKey` is assigned, and only on success. -/
def generateAnimationKey (env : TxEnv) (s : GenState) : Except String GenState :=
  match extractAnimationFrames env s with
  | .error e => .error ("failed to extract animation frames: " ++ e)
  | .ok frames =>
      let actualRowIndex :=
        if s.rowIndex ≥ s.keyBytes.length then s.keyBytes.length - 1 else s.rowIndex
      let rowIdx := ((s.keyBytes.getD actualRowIndex 0) % 16).toNat
      let frameTime0 : Int :=
        s.keyBytesIndices.foldl
          (fun ft idx =>
            if idx < s.keyBytes.length then ft * ((s.keyBytes.getD idx 0) % 16) else ft)
          1
      let frameTime := jsRound ((frameTime0 : ℚ) / 10) * 10
      if frames.length = 0 then .error ("no frame data available")
      else
        let frameRow := if rowIdx < frames.length then frames.getD rowIdx [] else frames.getD 0 []
        let targetTime : ℚ := (frameTime : ℚ) / 4096
        .ok { s with animationKey := env.animateFn frameRow targetTime }

/-- `extractAlgorithmData` (transaction.go, lines 392-409): indices, then
key, then animation key, stopping (with the state mutated so far) at the
first failure. -/
def extractAlgorithmData (env : TxEnv) (s : GenState) : GenState × Option String :=
  match extractIndices env s with
  | (s1, some e) => (s1, some ("failed to extract indices: " ++ e))
  | (s1, none) =>
      match extractKey env s1 with
      | (s2, some e) => (s2, some ("failed to extract key: " ++ e))
      | (s2, none) =>
          match generateAnimationKey env s2 with
          | .error e => (s2, some ("failed to generate animation key: " ++ e))
          | .ok s3 => (s3, none)

/-- `updateCachesWithFreshData` (transaction.go, lines 254-279): all three
entries get `CreatedAt = now`; the HTML and verification entries expire
after `HTMLDataCacheLifetime`, the animation entry after
`AnimationKeyLifetime`. -/
def updateCachesWithFreshData (cfg : ProdConfigT) (now : Int) (s : GenState) : GenState :=
  { s with
    htmlDataCache := some ⟨now, now + cfg.HTMLDataCacheLifetime⟩
    animationCache := some ⟨now, now + cfg.AnimationKeyLifetime⟩
    verificationCache := some ⟨now, now + cfg.HTMLDataCacheLifetime⟩ }

/-- `Refresh` (transaction.go, lines 198-228): fetch, re-extract, then
update caches; each failure surfaces a wrapped error and leaves the state
as mutated so far. The several `time.Now()` calls within one operation are
modelled as the single instant `now`. -/
def Refresh (env : TxEnv) (cfg : ProdConfigT) (now : Int) (s : GenState) :
    GenState × Option String :=
  match fetchTwitterData env s with
  | (s1, some e) => (s1, some ("failed to fetch Twitter data: " ++ e))
  | (s1, none) =>
      match extractAlgorithmData env s1 with
      | (s2, some e) => (s2, some ("failed to extract algorithm data: " ++ e))
      | (s2, none) =>
          let s3 := updateCachesWithFreshData cfg now s2
          ({ s3 with lastRefresh := now }, none)

/-- `ForceRefresh` (transaction.go, lines 231-246): set every non-nil cache
entry's `ExpiresAt` to `now - 1h` (leaving `CreatedAt` untouched), then
call `Refresh`. -/
def ForceRefresh (env : TxEnv) (cfg : ProdConfigT) (now : Int) (s : GenState) :
    GenState × Option String :=
  let s1 :=
    { s with
      htmlDataCache := s.htmlDataCache.map (fun c => { c with ExpiresAt := now - oneHour })
      animationCache := s.animationCache.map (fun c => { c with ExpiresAt := now - oneHour })
      verificationCache := s.verificationCache.map (fun c => { c with ExpiresAt := now - oneHour }) }
  Refresh env cfg now s1

/-- `initialize` (transaction.go, lines 104-148): fetch and extract like a
refresh, then create the three cache entries and set `initialized`. -/
def initializeGen (env : TxEnv) (cfg : ProdConfigT) (now : Int) (s : GenState) :
    GenState × Option String :=
  match fetchTwitterData env s with
  | (s1, some e) => (s1, some ("failed to fetch Twitter data: " ++ e))
  | (s1, none) =>
      match extractAlgorithmData env s1 with
      | (s2, some e) => (s2, some ("failed to extract algorithm data: " ++ e))
      | (s2, none) =>
          ({ s2 with
             htmlDataCache := some ⟨now, now + cfg.HTMLDataCacheLifetime⟩
             animationCache := some ⟨now, now + cfg.AnimationKeyLifetime⟩
             verificationCache := some ⟨now, now + cfg.HTMLDataCacheLifetime⟩
             initialized := true
             lastRefresh := now }, none)

/-- `Generate` (transaction.go, lines 151-168): when `needsRefresh`, run
`Refresh` and discard its error; then build the transaction ID from the
current `animationKey` and `keyBytes`, failing only when the RNG read
fails. -/
def Generate (env : TxEnv) (cfg : ProdConfigT) (now : Int) (method path : String)
    (s : GenState) : GenState × Except String String :=
  let s1 := if needsRefresh now s then (Refresh env cfg now s).1 else s
  match env.randRead with
  | .error e => (s1, .error ("failed to generate random number: " ++ e))
  | .ok r =>
      (s1, .ok (generateUniqueTransactionID env.sha method path env.nowMicro
        s1.animationKey s1.keyBytes r))

/- ===================== XPFF generator (xpff_generator.go) ===================== -/

/-- Hardcoded base key from `NewXPFFGenerator`. -/
def xpffBaseKey : String :=
  "0e6be1f1e21ffc33590b888fd4dc81b19713e570e805d4e5df80a493c9571a05"

/-- Go `encoding/json` string escaping: quote, backslash, control
characters, and the HTML-sensitive `<`, `>`, `&` (escaped as `<` etc.
by `json.Marshal`'s default encoder), plus U+2028/U+2029. -/
def goJSONEscape (s : String) : String :=
  String.join (s.toList.map (fun c =>
    if c = '"' then "\\\""
    else if c = '\\' then "\\\\"
    else if c = '<' then "\\u003c"
    else if c = '>' then "\\u003e"
    else if c = '&' then "\\u0026"
    else if c = Char.ofNat 10 then "\\n"
    else if c = Char.ofNat 13 then "\\r"
    else if c = Char.ofNat 9 then "\\t"
    else if c.toNat < 32 then
      "\\u00" ++ String.mk [Nat.digitChar (c.toNat / 16), Nat.digitChar (c.toNat % 16)]
    else if c.toNat = 0x2028 then "\\u2028"
    else if c.toNat = 0x2029 then "\\u2029"
    else String.mk [c]))

/-- `json.Marshal` of the `XPFFPayload` struct: compact JSON with the
fields in struct order
(`navigator_properties{hasBeenActive,userAgent,webdriver}`, `created_at`). -/
def payloadJSON (userAgent : String) (createdAt : Int) : String :=
  "\x7b\"navigator_properties\":\x7b\"hasBeenActive\":\"true\",\"userAgent\":\"" ++
  goJSONEscape userAgent ++
  "\",\"webdriver\":\"false\"\x7d,\"created_at\":" ++ toString createdAt ++ "\x7d"

/-- Lowercase hex digit, as used by Go's `encoding/hex`. -/
def hexChar (n : Nat) : Char := ("0123456789abcdef").toList.getD n '?'

/-- Go `hex.EncodeToString`: two lowercase hex digits per byte. -/
def hexEncode (bytes : List Nat) : List Char :=
  bytes.flatMap (fun b => [hexChar (b / 16), hexChar (b % 16)])

/-- `encryptAESGCM` (xpff_generator.go, lines 86-112) with the AES-GCM sealFn
operation (Go `crypto/aes` + `cipher.NewGCM`, external) and the RNG nonce
read as parameters: `aes.NewCipher` fails exactly when the key length is
not 16/24/32; `cipher.NewGCM` cannot fail on an AES block; the result is
`nonce ++ Seal(key, nonce, plaintext)` (ciphertext with appended GCM tag). -/
def encryptAESGCM (sealFn : List Nat → List Nat → String → List Nat)
    (nonceRead : Except String (List Nat)) (plaintext : String) (key : List Nat) :
    Except String (List Nat) :=
  if key.length = 16 ∨ key.length = 24 ∨ key.length = 32 then
    match nonceRead with
    | .error e => .error ("failed to generate nonce: " ++ e)
    | .ok nonce => .ok (nonce ++ sealFn key nonce plaintext)
  else .error ("failed to create AES cipher: invalid key size")

/-- `generateEncryptionKey` (xpff_generator.go, lines 75-83): SHA-256 over
the raw ASCII concatenation of the base key and the guest ID. -/
def generateEncryptionKey (sha : String → List Nat) (guestID : String) : List Nat :=
  sha (xpffBaseKey ++ guestID)

/-- `GenerateXPFF` (xpff_generator.go, lines 42-72): build the JSON
payload, derive the key, encrypt, and hex-encode. `json.Marshal` cannot
fail on this struct. -/
def GenerateXPFF (sha : String → List Nat) (sealFn : List Nat → List Nat → String → List Nat)
    (nonceRead : Except String (List Nat)) (nowMilli : Int)
    (guestID userAgent : String) : Except String String :=
  let pjson := payloadJSON userAgent nowMilli
  let encryptionKey := generateEncryptionKey sha guestID
  match encryptAESGCM sealFn nonceRead pjson encryptionKey with
  | .error e => .error ("failed to encrypt payload: " ++ e)
  | .ok encrypted => .ok (String.mk (hexEncode encrypted))

/- ===================== Retry driver (client.go) ===================== -/

/-- Outcome of the attempt loop in `executeWithRetry`. -/
inductive RetryOutcome (E R : Type) where
  | success (r : R)
  | exhausted (lastError : Option E)
  | cancelled
deriving DecidableEq, Repr

/-- Final error shape of `executeWithRetry`: either the wrapping
`fmt.Errorf("request failed after %d attempts: %w", maxAttempts, lastError)`
or a context error returned as-is from the backoff select. -/
inductive RetryError (E : Type) where
  | requestFailedAfter (attempts : Nat) (cause : Option E)
  | ctxError
deriving DecidableEq, Repr

/-- The `for attempt := 1; attempt <= maxAttempts; attempt++` loop of
`executeWithRetry` (client.go, lines 146-194). `op n` is the result of
executing the operation on attempt `n`; `ctxErrAfter n` models
`ctx.Err() != nil` at the post-failure check; `cancelInBackoff n` models
the `ctx.Done()` arm of the backoff select winning. The loop counter is
structural fuel `maxAttempts + 1 - attempt`; the fuel-0 case is the loop
guard failing, which falls through to the final wrapped-error return.
Returns the outcome together with the number of times the operation was
executed. -/
def retryLoop {E R : Type} (op : Nat → Except E R) (ctxErrAfter cancelInBackoff : Nat → Bool)
    (maxAttempts : Nat) : Nat → Nat → Option E → RetryOutcome E R × Nat
  | 0, _, lastError => (.exhausted lastError, 0)
  | fuel + 1, attempt, _ =>
      match op attempt with
      | .ok r => (.success r, 1)
      | .error e =>
          if maxAttempts ≤ attempt || ctxErrAfter attempt then (.exhausted (some e), 1)
          else if cancelInBackoff attempt then (.cancelled, 1)
          else
            let rest := retryLoop op ctxErrAfter cancelInBackoff maxAttempts fuel (attempt + 1) (some e)
            (rest.1, rest.2 + 1)

/-- `executeWithRetry` (client.go, lines 129-202): `maxAttempts` is 1 when
retry is disabled and `MaxRetryAttempts + 1` when enabled; on exhaustion
the last error is wrapped with the attempt count; a context cancellation
during backoff surfaces `ctx.Err()` directly. Returns the Go result
together with the number of operation executions. -/
def executeWithRetry {E R : Type} (retryEnabled : Bool) (maxRetryAttempts : Nat)
    (op : Nat → Except E R) (ctxErrAfter cancelInBackoff : Nat → Bool) :
    Except (RetryError E) R × Nat :=
  let maxAttempts := if retryEnabled then maxRetryAttempts + 1 else 1
  let res := retryLoop op ctxErrAfter cancelInBackoff maxAttempts maxAttempts 1 none
  match res.1 with
  | .success r => (.ok r, res.2)
  | .exhausted lastError => (.error (.requestFailedAfter maxAttempts lastError), res.2)
  | .cancelled => (.error .ctxError, res.2)

/- ===================== Invariants and concrete fixtures ===================== -/

/-- The TTL invariant of one cache entry: `expires_at = created_at + ttl`
(vacuous for a nil entry). -/
def cacheTTLInv (ttl : Int) : Option CacheEntryT → Prop
  | none => True
  | some c => c.ExpiresAt = c.CreatedAt + ttl

instance (ttl : Int) (oc : Option CacheEntryT) : Decidable (cacheTTLInv ttl oc) :=
  match oc with
  | none => .isTrue trivial
  | some c => inferInstanceAs (Decidable (c.ExpiresAt = c.CreatedAt + ttl))

/-- The TTL invariant of the whole generator: each of the three entries
satisfies its configured lifetime; the verification entry uses
`HTMLDataCacheLifetime`, exactly as the source assigns it. -/
def cacheInvariant (cfg : ProdConfigT) (s : GenState) : Prop :=
  cacheTTLInv cfg.HTMLDataCacheLifetime s.htmlDataCache ∧
  cacheTTLInv cfg.AnimationKeyLifetime s.animationCache ∧
  cacheTTLInv cfg.HTMLDataCacheLifetime s.verificationCache

instance (cfg : ProdConfigT) (s : GenState) : Decidable (cacheInvariant cfg s) :=
  inferInstanceAs (Decidable (_ ∧ _ ∧ _))

/-- A concrete generator state whose three cache entries all expire at
instant 5. -/
def boundaryState : GenState :=
  { initialized := true
    htmlDataCache := some ⟨0, 5⟩
    animationCache := some ⟨0, 5⟩
    verificationCache := some ⟨0, 5⟩ }

/-- The production TTLs: 6h of HTML-data lifetime, 3h of animation-key
lifetime (in seconds). -/
def cfg0 : ProdConfigT := ⟨21600, 10800⟩

/-- An environment whose home-page fetch succeeds with a body that does not
contain the ondemand marker (`ondemandMatch` finds nothing), so every
refresh fails after overwriting `homePageHTML`. -/
def envNoMarker : TxEnv :=
  { homeFetch := .ok ("NEWHTML")
    ondemandMatch := fun _ => none
    ondemandFetch := fun _ => .error ("unreachable")
    indicesMatches := fun _ => []
    metaKey := fun _ => none
    frameRows := fun _ _ => none
    animateFn := fun _ _ => ""
    sha := fun _ => List.replicate 32 0
    randRead := .ok 0
    nowMicro := 0 }

/-- A generator state holding previously cached signing material. -/
def stOld : GenState :=
  { initialized := true
    htmlDataCache := some ⟨0, 21600⟩
    animationCache := some ⟨0, 10800⟩
    verificationCache := some ⟨0, 21600⟩
    homePageHTML := "OLD"
    onDemandFileHTML := "OLDJS"
    keyBytes := [9, 9, 9]
    animationKey := "oldak"
    key := "oldkey" }

/-- An environment where fetching and key extraction succeed but the new
verification key decodes to only 3 bytes, so animation-key generation fails
(`key_bytes` too short) after `keyBytes` has already been replaced. -/
def envAnimFail : TxEnv :=
  { homeFetch := .ok ("H1")
    ondemandMatch := fun _ => some "ID"
    ondemandFetch := fun _ => .ok ("OD")
    indicesMatches := fun _ => [4, 1, 2]
    metaKey := fun _ => some "AQEB"
    frameRows := fun _ _ => some [[1]]
    animateFn := fun _ _ => "newak"
    sha := fun _ => List.replicate 32 0
    randRead := .ok 0
    nowMicro := 1682924400000000 }

/-- A fully successful environment: marker found, indices `[4,1,2]`, an
8-character verification key decoding to 6 zero bytes, one frame row. -/
def envSuccess : TxEnv :=
  { homeFetch := .ok ("H2")
    ondemandMatch := fun _ => some "ID"
    ondemandFetch := fun _ => .ok ("OD")
    indicesMatches := fun _ => [4, 1, 2]
    metaKey := fun _ => some "AAAAAAAA"
    frameRows := fun _ _ => some [[1, 2, 3]]
    animateFn := fun _ _ => "freshak"
    sha := fun _ => List.replicate 32 0
    randRead := .ok 0
    nowMicro := 1682924400000000 }

/- ===================== Base64 lemmas ===================== -/

/-- Decoding inverts the alphabet lookup on 6-bit values. -/
theorem b64DecChar_b64Char : ∀ n < 64, b64DecChar (b64Char n) = some n := by decide

/-- Alphabet characters are never the padding character. -/
theorem b64Char_ne_pad : ∀ n < 64, b64Char n ≠ '=' := by decide

/-- Decoding a standard base64 encoding recovers the bytes. -/
theorem b64_decode_encode : ∀ bs : List Nat, (∀ b ∈ bs, b < 256) →
    b64DecodeChars (b64EncodeBytes bs) = some bs := by
  intro bs
  induction bs using b64EncodeBytes.induct with
  | case1 =>
      intro _
      simp [b64EncodeBytes, b64DecodeChars]
  | case2 b0 =>
      intro h
      have hb0 : b0 < 256 := h b0 (by simp)
      have h1 : b64DecChar (b64Char (b0 / 4)) = some (b0 / 4) :=
        b64DecChar_b64Char _ (by omega)
      have h2 : b64DecChar (b64Char (b0 % 4 * 16)) = some (b0 % 4 * 16) :=
        b64DecChar_b64Char _ (by omega)
      simp [b64EncodeBytes, b64DecodeChars, h1, h2]
      omega
  | case3 b0 b1 =>
      intro h
      have hb0 : b0 < 256 := h b0 (by simp)
      have hb1 : b1 < 256 := h b1 (by simp)
      have h1 : b64DecChar (b64Char (b0 / 4)) = some (b0 / 4) :=
        b64DecChar_b64Char _ (by omega)
      have h2 : b64DecChar (b64Char (b0 % 4 * 16 + b1 / 16)) = some (b0 % 4 * 16 + b1 / 16) :=
        b64DecChar_b64Char _ (by omega)
      have h3 : b64DecChar (b64Char (b1 % 16 * 4)) = some (b1 % 16 * 4) :=
        b64DecChar_b64Char _ (by omega)
      have hne : b64Char (b1 % 16 * 4) ≠ '=' := b64Char_ne_pad _ (by omega)
      simp [b64EncodeBytes, b64DecodeChars, h1, h2, h3, hne]
      omega
  | case4 b0 b1 b2 rest ih =>
      intro h
      have hb0 : b0 < 256 := h b0 (by simp)
      have hb1 : b1 < 256 := h b1 (by simp)
      have hb2 : b2 < 256 := h b2 (by simp)
      have h1 : b64DecChar (b64Char (b0 / 4)) = some (b0 / 4) :=
        b64DecChar_b64Char _ (by omega)
      have h2 : b64DecChar (b64Char (b0 % 4 * 16 + b1 / 16)) = some (b0 % 4 * 16 + b1 / 16) :=
        b64DecChar_b64Char _ (by omega)
      have h3 : b64DecChar (b64Char (b1 % 16 * 4 + b2 / 64)) = some (b1 % 16 * 4 + b2 / 64) :=
        b64DecChar_b64Char _ (by omega)
      have h4 : b64DecChar (b64Char (b2 % 64)) = some (b2 % 64) :=
        b64DecChar_b64Char _ (by omega)
      have hne2 : b64Char (b1 % 16 * 4 + b2 / 64) ≠ '=' := b64Char_ne_pad _ (by omega)
      have hne3 : b64Char (b2 % 64) ≠ '=' := b64Char_ne_pad _ (by omega)
      have ihh := ih (fun b hb => h b (by simp [hb]))
      simp [b64EncodeBytes, b64DecodeChars, h1, h2, h3, h4, hne2, hne3, ihh]
      omega

/-- The padded encoding is the unpadded core followed by the padding. -/
theorem b64Encode_eq_noPad_append : ∀ bs : List Nat,
    b64EncodeBytes bs = b64EncodeNoPad bs ++ List.replicate (b64PadLen bs) '=' := by
  intro bs
  induction bs using b64EncodeBytes.induct with
  | case1 => rfl
  | case2 b0 => rfl
  | case3 b0 b1 => rfl
  | case4 b0 b1 b2 rest ih =>
      simp [b64EncodeBytes, b64EncodeNoPad, b64PadLen, ih]

/-- The unpadded core of an encoding of bytes contains no padding character. -/
theorem b64EncodeNoPad_ne_pad : ∀ bs : List Nat, (∀ b ∈ bs, b < 256) →
    ∀ c ∈ b64EncodeNoPad bs, c ≠ '=' := by
  intro bs
  induction bs using b64EncodeNoPad.induct with
  | case1 =>
      intro _ c hc
      simp [b64EncodeNoPad] at hc
  | case2 b0 =>
      intro h c hc
      have hb0 : b0 < 256 := h b0 (by simp)
      simp [b64EncodeNoPad] at hc
      rcases hc with hc | hc <;> exact hc ▸ b64Char_ne_pad _ (by omega)
  | case3 b0 b1 =>
      intro h c hc
      have hb0 : b0 < 256 := h b0 (by simp)
      have hb1 : b1 < 256 := h b1 (by simp)
      simp [b64EncodeNoPad] at hc
      rcases hc with hc | hc | hc <;> exact hc ▸ b64Char_ne_pad _ (by omega)
  | case4 b0 b1 b2 rest ih =>
      intro h c hc
      have hb0 : b0 < 256 := h b0 (by simp)
      have hb1 : b1 < 256 := h b1 (by simp)
      have hb2 : b2 < 256 := h b2 (by simp)
      simp [b64EncodeNoPad] at hc
      rcases hc with hc | hc | hc | hc | hc
      · exact hc ▸ b64Char_ne_pad _ (by omega)
      · exact hc ▸ b64Char_ne_pad _ (by omega)
      · exact hc ▸ b64Char_ne_pad _ (by omega)
      · exact hc ▸ b64Char_ne_pad _ (by omega)
      · exact ih (fun b hb => h b (by simp [hb])) c hc

/-- Length of the unpadded core modulo 4 determines the padding count. -/
theorem b64NoPad_length_mod : ∀ bs : List Nat,
    (b64EncodeNoPad bs).length % 4 = (4 - b64PadLen bs) % 4 ∧ b64PadLen bs ≤ 2 := by
  intro bs
  induction bs using b64EncodeNoPad.induct with
  | case1 => simp [b64EncodeNoPad, b64PadLen]
  | case2 b0 => simp [b64EncodeNoPad, b64PadLen]
  | case3 b0 b1 => simp [b64EncodeNoPad, b64PadLen]
  | case4 b0 b1 b2 rest ih =>
      simp only [b64EncodeNoPad, b64PadLen, List.length_cons]
      omega

/-- Dropping while a predicate holds skips a replicate of a satisfying value. -/
theorem dropWhile_replicate_pad (n : Nat) (l : List Char) :
    (List.replicate n '=' ++ l).dropWhile (fun c => c = '=') =
      l.dropWhile (fun c => c = '=') := by
  induction n with
  | zero => simp
  | succ n ih => simp [List.replicate_succ, ih]

/-- Dropping while a predicate holds is the identity when no element satisfies it. -/
theorem dropWhile_eq_self_of_none (p : Char → Bool) :
    ∀ l : List Char, (∀ c ∈ l, p c = false) → l.dropWhile p = l := by
  intro l
  induction l with
  | nil => intro _; rfl
  | cons a l ih =>
      intro h
      have ha : p a = false := h a (by simp)
      simp [List.dropWhile, ha]

/-- Stripping trailing padding from an encoding yields the unpadded core. -/
theorem trim_b64Encode (bs : List Nat) (h : ∀ b ∈ bs, b < 256) :
    trimBase64Padding (b64EncodeBytes bs) = b64EncodeNoPad bs := by
  have hne := b64EncodeNoPad_ne_pad bs h
  rw [trimBase64Padding, b64Encode_eq_noPad_append bs]
  rw [List.reverse_append, List.reverse_replicate, dropWhile_replicate_pad]
  rw [dropWhile_eq_self_of_none _ _ (by
    intro c hc
    have := hne c (by simpa using hc)
    simpa using this)]
  simp

/-- Re-adding padding to the unpadded core restores the full encoding. -/
theorem b64Pad_noPad (bs : List Nat) :
    b64Pad (b64EncodeNoPad bs) = b64EncodeBytes bs := by
  have hm := b64NoPad_length_mod bs
  rw [b64Pad, b64Encode_eq_noPad_append bs]
  congr 1
  congr 1
  omega

/-- XOR with the same byte twice is the identity. -/
theorem xor_xor_cancel (b r : Nat) : (b ^^^ r) ^^^ r = b := by
  rw [Nat.xor_assoc, Nat.xor_self, Nat.xor_zero]

/- ===================== C1: transaction ID byte layout ===================== -/

/-- Every byte of the masked array is below 256, given byte-ranged inputs. -/
theorem txnMaskedBytes_lt (sha : String → List Nat) (method path : String) (nowMicro : Int)
    (animationKey : String) (keyBytes : List Int) (r : Nat) (hr : r < 256)
    (hsha : ∀ s, ∀ b ∈ sha s, b < 256) :
    ∀ b ∈ txnMaskedBytes sha method path nowMicro animationKey keyBytes r, b < 256 := by
  intro b hb
  rw [txnMaskedBytes] at hb
  rcases List.mem_cons.mp hb with hb | hb
  · omega
  · rcases List.mem_map.mp hb with ⟨a, ha, rfl⟩
    have ha' : a < 256 := by
      rw [txnPayload] at ha
      simp only [List.mem_append, List.mem_map, List.mem_singleton] at ha
      rcases ha with ((⟨kb, hkbm, rfl⟩ | ⟨i, _, rfl⟩) | hsh) | h3
      · omega
      · rw [timeByte]
        omega
      · exact hsha _ a (List.mem_of_mem_take hsh)
      · rw [h3]; rw [AdditionalRandomNumber]; omega
    calc a ^^^ r < 2 ^ 8 := Nat.xor_lt_two_pow (by omega) (by omega)
    _ = 256 := by norm_num

/-- C1: for every (method, path), every key-byte sequence (bytes stored as
integers in [0,255]), every random mask byte r and any SHA-256 digest
function (32 bytes), the transaction ID produced by
`generateUniqueTransactionID`, after re-adding base64 padding and decoding,
is a byte string of length `1 + len(key_bytes) + 4 + 16 + 1` whose first
byte is `r`, and XORing each later byte with the first reproduces
`key_bytes`, then the 4 little-endian time bytes, then the first 16 digest
bytes, then the constant byte 3. -/
theorem txnid_decode_roundtrip (sha : String → List Nat) (method path : String)
    (nowMicro : Int) (animationKey : String) (keyBytes : List Int) (r : Nat)
    (hr : r < 256) (hkb : ∀ kb ∈ keyBytes, 0 ≤ kb ∧ kb < 256)
    (hlen : ∀ s, (sha s).length = 32) (hby : ∀ s, ∀ b ∈ sha s, b < 256) :
    ∃ decoded : List Nat,
      b64DecodeChars (b64Pad
        (generateUniqueTransactionID sha method path nowMicro animationKey keyBytes r).data)
        = some decoded ∧
      decoded.length = 1 + keyBytes.length + 4 + 16 + 1 ∧
      decoded.head? = some r ∧
      decoded.tail.map (fun b => b ^^^ r) =
        keyBytes.map Int.toNat ++ (List.range 4).map (timeByte (timeNowOf nowMicro)) ++
        (sha (txnHashString method path (timeNowOf nowMicro) animationKey)).take 16 ++
        [AdditionalRandomNumber] := by
  set masked := txnMaskedBytes sha method path nowMicro animationKey keyBytes r with hmasked
  have hm : ∀ b ∈ masked, b < 256 :=
    txnMaskedBytes_lt sha method path nowMicro animationKey keyBytes r hr hby
  refine ⟨masked, ?_, ?_, ?_, ?_⟩
  · have hdata : (generateUniqueTransactionID sha method path nowMicro animationKey keyBytes r).data
        = trimBase64Padding (b64EncodeBytes masked) := rfl
    rw [hdata, trim_b64Encode masked hm, b64Pad_noPad masked]
    exact b64_decode_encode masked hm
  · rw [hmasked, txnMaskedBytes, List.length_cons]
    simp [txnPayload, hlen]
    omega
  · rw [hmasked, txnMaskedBytes]; rfl
  · rw [hmasked, txnMaskedBytes]
    simp only [List.tail_cons, List.map_map]
    have hid : ∀ b ∈ txnPayload sha method path nowMicro animationKey keyBytes,
        ((fun b => b ^^^ r) ∘ fun b => b ^^^ r) b = id b := by
      intro b _
      simp [Function.comp, xor_xor_cancel]
    rw [List.map_congr_left hid, List.map_id]
    have hkmap : keyBytes.map (fun kb => (kb % 256).toNat) = keyBytes.map Int.toNat := by
      apply List.map_congr_left
      intro kb hkbm
      rw [Int.emod_eq_of_lt (hkb kb hkbm).1 (hkb kb hkbm).2]
    simp only [txnPayload]
    rw [hkmap]

/-- Witness for `txnid_decode_roundtrip` at a concrete input. -/
theorem txnid_decode_roundtrip_witness :
    ∃ decoded : List Nat,
      b64DecodeChars (b64Pad
        (generateUniqueTransactionID (fun _ => List.replicate 32 0) "GET" "/graphql/foo/Bar"
          1700000000000000 "abc" [0, 1, 255] 7).data)
        = some decoded ∧
      decoded.length = 1 + ([0, 1, 255] : List Int).length + 4 + 16 + 1 ∧
      decoded.head? = some 7 ∧
      decoded.tail.map (fun b => b ^^^ 7) =
        ([0, 1, 255] : List Int).map Int.toNat ++
        (List.range 4).map (timeByte (timeNowOf 1700000000000000)) ++
        ((fun (_ : String) => List.replicate 32 0)
          (txnHashString "GET" "/graphql/foo/Bar" (timeNowOf 1700000000000000) "abc")).take 16 ++
        [AdditionalRandomNumber] :=
  txnid_decode_roundtrip (fun _ => List.replicate 32 0) "GET" "/graphql/foo/Bar"
    1700000000000000 "abc" [0, 1, 255] 7 (by decide) (by decide)
    (fun _ => by simp) (fun _ b hb => by simp at hb; omega)

/- ===================== C5: rotation-to-matrix ordering ===================== -/

/-- C5: for every rotation angle, `convertRotationToMatrix` returns
`[cos(θπ/180), sin(θπ/180), -sin(θπ/180), cos(θπ/180)]` in that order; in
particular the third and fourth entries have the sign pattern
`[-sin θ, cos θ]`. -/
theorem convertRotationToMatrix_spec (θ : ℝ) :
    convertRotationToMatrix θ =
      [Real.cos (θ * Real.pi / 180), Real.sin (θ * Real.pi / 180),
       -Real.sin (θ * Real.pi / 180), Real.cos (θ * Real.pi / 180)] ∧
    (convertRotationToMatrix θ).getD 2 0 = -Real.sin (θ * Real.pi / 180) ∧
    (convertRotationToMatrix θ).getD 3 0 = Real.cos (θ * Real.pi / 180) :=
  ⟨rfl, rfl, rfl⟩

/- ===================== C4: bezier start-gradient degenerate rules ===================== -/

/-- Counterexample to C4: the claim says that for `x1 = 0`, `y1 ≠ 0`,
`x2 > 0` and `t ≤ 0` the result is `(y2/x2)·t`. At control points
`(0, 1, 1, 1)` and `t = -1` that would be `-1`, but `evaluateCubicBezier`
tests `y1 == 0` (not `x1 == 0`) in its second degenerate branch, so the
start gradient is 0 and the result is 0. -/
theorem bezier_start_gradient_cex :
    evaluateCubicBezier 0 [(0:ℚ), 1, 1, 1] (-1) = 0 ∧
    ((1:ℚ) / 1) * (-1) ≠ 0 := by
  constructor
  · rw [evaluateCubicBezier]
    norm_num
  · norm_num

/-- C4 as amended: for `t ≤ 0` the result is `start_gradient · t`, where
`start_gradient = y1/x1` when `x1 > 0`, `start_gradient = y2/x2` when
`y1 == 0` and `x2 > 0` (the code tests the y-coordinate of the first
control point here, not its x-coordinate), and 0 otherwise. -/
theorem bezier_nonpositive_t (fuel : Nat) (x1 y1 x2 y2 : ℚ) (rest : List ℚ) (t : ℚ)
    (ht : t ≤ 0) :
    evaluateCubicBezier fuel (x1 :: y1 :: x2 :: y2 :: rest) t =
      (if 0 < x1 then y1 / x1 else if y1 = 0 ∧ 0 < x2 then y2 / x2 else 0) * t := by
  rw [evaluateCubicBezier]
  have hlen : ¬((x1 :: y1 :: x2 :: y2 :: rest).length < 4) := by simp
  rw [if_neg hlen, if_pos ht]
  simp [List.getD]

/-- Witness for `bezier_nonpositive_t` at concrete control points. -/
theorem bezier_nonpositive_t_witness :
    (-2 : ℚ) ≤ 0 ∧
    evaluateCubicBezier 3 ((1:ℚ) :: 2 :: 1 :: 1 :: []) (-2) =
      (if (0:ℚ) < 1 then (2:ℚ) / 1 else if (2:ℚ) = 0 ∧ (0:ℚ) < 1 then 1 / 1 else 0) * (-2) :=
  ⟨by norm_num, bezier_nonpositive_t 3 1 2 1 1 [] (-2) (by norm_num)⟩

/- ===================== C3: interpolation clamping ===================== -/

/-- Every component produced by `interpolate` is clamped into [0, 255]. -/
theorem interpolate_mem_bounds (w : ℚ) :
    ∀ (f t : List ℚ), ∀ x ∈ interpolate f t w, 0 ≤ x ∧ x ≤ 255 := by
  intro f
  induction f with
  | nil => intro t x hx; simp [interpolate] at hx
  | cons a f ih =>
      intro t x hx
      cases t with
      | nil => simp [interpolate] at hx
      | cons b t =>
          rw [interpolate, List.zipWith_cons_cons] at hx
          rcases List.mem_cons.mp hx with rfl | hx
          · exact ⟨le_max_left 0 _, max_le (by norm_num) (min_le_left _ _)⟩
          · exact ih t x hx

/-- Counterexample to C3: with frame row `[0,0,0,0,0,0,255]` the target
rotation is `solve(255, 60, 360, true) = 360 > 255`, and the claim says the
interpolated rotation at `v = 1` is `0 + (360 - 0)·1 = 360` with no
clamping; but `interpolate` clamps every component, so the rotation handed
to the matrix conversion is 255. -/
theorem animate_rotation_clamp_cex :
    solve 255 60 360 true = 360 ∧
    animateRotationPart [0, 0, 0, 0, 0, 0, 255] 1 = [255] ∧
    ¬ ((255 : ℚ) = 0 + (solve 255 60 360 true - 0) * 1) := by
  refine ⟨?_, ?_, ?_⟩
  · rw [solve]
    norm_num
  · rw [animateRotationPart]
    norm_num [padTo15, solve, interpolate]
  · rw [solve]
    norm_num

/-- C3 as amended: in the animation-key computation the rotation is
interpolated with the same [0,255] clamp as the colors:
`rotation = max(0, min(255, to_rot · v))` (with `from_rot = 0`), and every
component `interpolate` produces — color or rotation — lies in [0,255]; in
particular the rotation used for the matrix never exceeds 255, even when
`to_rot` does. -/
theorem animate_rotation_clamped (frameRow : List Int) (v : ℚ) (f t : List ℚ) (w x : ℚ)
    (hx : x ∈ interpolate f t w) :
    animateRotationPart frameRow v =
      [max 0 (min 255 (solve (((padTo15 frameRow).getD 6 0 : Int) : ℚ) 60 360 true * v))] ∧
    0 ≤ x ∧ x ≤ 255 := by
  constructor
  · rw [animateRotationPart]
    simp [interpolate]
  · exact interpolate_mem_bounds w f t x hx

/-- Witness for `animate_rotation_clamped` at a concrete row, value and
clamped component. -/
theorem animate_rotation_clamped_witness :
    (255 : ℚ) ∈ interpolate [0] [300] 1 ∧
    (animateRotationPart [0, 0, 0, 0, 0, 0, 255] (1/2) =
      [max 0 (min 255 (solve (((padTo15 [0, 0, 0, 0, 0, 0, 255]).getD 6 0 : Int) : ℚ)
        60 360 true * (1/2)))] ∧
    0 ≤ (255 : ℚ) ∧ (255 : ℚ) ≤ 255) :=
  ⟨by norm_num [interpolate],
   animate_rotation_clamped [0, 0, 0, 0, 0, 0, 255] (1/2) [0] [300] 1 255
     (by norm_num [interpolate])⟩

/- ===================== C6: needsRefresh semantics ===================== -/

/-- Counterexample to C6: the claim says an entry is expired iff
`now ≥ expires_at`, so at the boundary instant `now = expires_at = 5` the
generator should report that it needs a refresh; but `needsRefresh` uses Go
`now.After(ExpiresAt)`, which is strict, and returns false. -/
theorem needsRefresh_boundary_cex :
    needsRefresh 5 boundaryState = false ∧ (5 : Int) ≥ 5 := by
  exact ⟨rfl, le_refl 5⟩

/-- C6 as amended: `needsRefresh` returns true exactly when the generator
was never initialized or some non-nil cache entry has `expires_at < now`
(strict): an entry is expired iff `now > expires_at`, and at the boundary
instant `now = expires_at` the entry does not yet count as expired. -/
theorem needsRefresh_iff (now : Int) (s : GenState) :
    needsRefresh now s = true ↔
      (s.initialized = false ∨
       (∃ c, s.htmlDataCache = some c ∧ c.ExpiresAt < now) ∨
       (∃ c, s.animationCache = some c ∧ c.ExpiresAt < now) ∨
       (∃ c, s.verificationCache = some c ∧ c.ExpiresAt < now)) := by
  rw [needsRefresh]
  rcases s with ⟨init, hc, ac, vc, _, _, _, _, _, _, _, _⟩
  cases init <;> cases hc <;> cases ac <;> cases vc <;> (simp; try tauto)

/- ===================== Refresh preservation helpers ===================== -/

/-- `fetchTwitterData` never touches the cache entries or the animation
key, whatever its outcome. -/
theorem fetch_core (env : TxEnv) (s s' : GenState) (oe : Option String)
    (h : fetchTwitterData env s = (s', oe)) :
    s'.htmlDataCache = s.htmlDataCache ∧ s'.animationCache = s.animationCache ∧
    s'.verificationCache = s.verificationCache ∧ s'.animationKey = s.animationKey := by
  rw [fetchTwitterData] at h
  cases heq : env.homeFetch with
  | error e =>
      rw [heq] at h
      dsimp only at h
      injection h with h1 h2
      subst h1
      exact ⟨rfl, rfl, rfl, rfl⟩
  | ok home =>
      rw [heq] at h
      dsimp only at h
      cases heq2 : env.ondemandMatch home with
      | none =>
          rw [heq2] at h
          dsimp only at h
          injection h with h1 h2
          subst h1
          exact ⟨rfl, rfl, rfl, rfl⟩
      | some fid =>
          rw [heq2] at h
          dsimp only at h
          cases heq3 : env.ondemandFetch fid with
          | error e =>
              rw [heq3] at h
              dsimp only at h
              injection h with h1 h2
              subst h1
              exact ⟨rfl, rfl, rfl, rfl⟩
          | ok od =>
              rw [heq3] at h
              dsimp only at h
              injection h with h1 h2
              subst h1
              exact ⟨rfl, rfl, rfl, rfl⟩

/-- `extractIndices` never touches the cache entries or the animation key. -/
theorem extractIndices_core (env : TxEnv) (s s' : GenState) (oe : Option String)
    (h : extractIndices env s = (s', oe)) :
    s'.htmlDataCache = s.htmlDataCache ∧ s'.animationCache = s.animationCache ∧
    s'.verificationCache = s.verificationCache ∧ s'.animationKey = s.animationKey := by
  rw [extractIndices] at h
  cases heq : env.indicesMatches s.onDemandFileHTML with
  | nil =>
      rw [heq] at h
      dsimp only at h
      injection h with h1 h2
      subst h1
      exact ⟨rfl, rfl, rfl, rfl⟩
  | cons i rest =>
      rw [heq] at h
      dsimp only at h
      injection h with h1 h2
      subst h1
      exact ⟨rfl, rfl, rfl, rfl⟩

/-- `extractKey` never touches the cache entries or the animation key. -/
theorem extractKey_core (env : TxEnv) (s s' : GenState) (oe : Option String)
    (h : extractKey env s = (s', oe)) :
    s'.htmlDataCache = s.htmlDataCache ∧ s'.animationCache = s.animationCache ∧
    s'.verificationCache = s.verificationCache ∧ s'.animationKey = s.animationKey := by
  rw [extractKey] at h
  cases heq : env.metaKey s.homePageHTML with
  | none =>
      rw [heq] at h
      dsimp only at h
      injection h with h1 h2
      subst h1
      exact ⟨rfl, rfl, rfl, rfl⟩
  | some k =>
      rw [heq] at h
      dsimp only at h
      cases heq2 : b64DecodeChars k.toList with
      | none =>
          rw [heq2] at h
          dsimp only at h
          injection h with h1 h2
          subst h1
          exact ⟨rfl, rfl, rfl, rfl⟩
      | some decoded =>
          rw [heq2] at h
          dsimp only at h
          injection h with h1 h2
          subst h1
          exact ⟨rfl, rfl, rfl, rfl⟩

/-- A failing `extractAlgorithmData` never touches the cache entries or the
animation key (the animation key is assigned only on full success). -/
theorem extractAlgorithmData_fail_core (env : TxEnv) (s s' : GenState) (e : String)
    (h : extractAlgorithmData env s = (s', some e)) :
    s'.htmlDataCache = s.htmlDataCache ∧ s'.animationCache = s.animationCache ∧
    s'.verificationCache = s.verificationCache ∧ s'.animationKey = s.animationKey := by
  rw [extractAlgorithmData] at h
  rcases hi : extractIndices env s with ⟨s1, e1⟩
  rw [hi] at h
  cases e1 with
  | some e1v =>
      dsimp only at h
      injection h with h1 h2
      subst h1
      exact extractIndices_core env s s1 _ hi
  | none =>
      dsimp only at h
      rcases hk : extractKey env s1 with ⟨s2, e2⟩
      rw [hk] at h
      have hc1 := extractIndices_core env s s1 _ hi
      cases e2 with
      | some e2v =>
          dsimp only at h
          injection h with h1 h2
          subst h1
          have hc2 := extractKey_core env s1 s2 _ hk
          exact ⟨hc2.1.trans hc1.1, hc2.2.1.trans hc1.2.1,
                 hc2.2.2.1.trans hc1.2.2.1, hc2.2.2.2.trans hc1.2.2.2⟩
      | none =>
          dsimp only at h
          have hc2 := extractKey_core env s1 s2 _ hk
          cases ha : generateAnimationKey env s2 with
          | error e3 =>
              rw [ha] at h
              dsimp only at h
              injection h with h1 h2
              subst h1
              exact ⟨hc2.1.trans hc1.1, hc2.2.1.trans hc1.2.1,
                     hc2.2.2.1.trans hc1.2.2.1, hc2.2.2.2.trans hc1.2.2.2⟩
          | ok s3 =>
              rw [ha] at h
              dsimp only at h
              injection h with h1 h2
              exact Option.noConfusion h2

/-- A failing `Refresh` never touches the cache entries or the animation
key. -/
theorem refresh_fail_core (env : TxEnv) (cfg : ProdConfigT) (now : Int)
    (s s' : GenState) (e : String) (h : Refresh env cfg now s = (s', some e)) :
    s'.htmlDataCache = s.htmlDataCache ∧ s'.animationCache = s.animationCache ∧
    s'.verificationCache = s.verificationCache ∧ s'.animationKey = s.animationKey := by
  rw [Refresh] at h
  rcases hf : fetchTwitterData env s with ⟨s1, e1⟩
  rw [hf] at h
  cases e1 with
  | some e1v =>
      dsimp only at h
      injection h with h1 h2
      subst h1
      exact fetch_core env s s1 _ hf
  | none =>
      dsimp only at h
      rcases ha : extractAlgorithmData env s1 with ⟨s2, e2⟩
      rw [ha] at h
      cases e2 with
      | some e2v =>
          dsimp only at h
          injection h with h1 h2
          subst h1
          have hc1 := fetch_core env s s1 _ hf
          have hc2 := extractAlgorithmData_fail_core env s1 s2 _ ha
          exact ⟨hc2.1.trans hc1.1, hc2.2.1.trans hc1.2.1,
                 hc2.2.2.1.trans hc1.2.2.1, hc2.2.2.2.trans hc1.2.2.2⟩
      | none =>
          dsimp only at h
          injection h with h1 h2
          exact Option.noConfusion h2

/-- A successful `Refresh` leaves the state satisfying the TTL invariant:
all three entries are rebuilt with `created_at = now` and their configured
lifetimes. -/
theorem refresh_ok_inv (env : TxEnv) (cfg : ProdConfigT) (now : Int)
    (s s' : GenState) (h : Refresh env cfg now s = (s', none)) :
    cacheInvariant cfg s' := by
  rw [Refresh] at h
  rcases hf : fetchTwitterData env s with ⟨s1, e1⟩
  rw [hf] at h
  cases e1 with
  | some e1v =>
      dsimp only at h
      injection h with h1 h2
      exact Option.noConfusion h2
  | none =>
      dsimp only at h
      rcases ha : extractAlgorithmData env s1 with ⟨s2, e2⟩
      rw [ha] at h
      cases e2 with
      | some e2v =>
          dsimp only at h
          injection h with h1 h2
          exact Option.noConfusion h2
      | none =>
          dsimp only at h
          injection h with h1 h2
          subst h1
          exact ⟨rfl, rfl, rfl⟩

/- ===================== C2: failed refresh and the cached material ===================== -/

/-- Counterexample to C2: with an environment whose home page downloads
fine but contains no ondemand marker, `Refresh` fails with a parse error,
yet `homePageHTML` — part of the cached signing material named by the
claim — has already been overwritten with the new body. -/
theorem refresh_partial_overwrite_cex :
    (Refresh envNoMarker cfg0 0 stOld).2 =
      some ("failed to fetch Twitter data: ondemand file URL not found in home page") ∧
    (Refresh envNoMarker cfg0 0 stOld).1.homePageHTML = "NEWHTML" ∧
    stOld.homePageHTML = "OLD" ∧ ("NEWHTML" : String) ≠ "OLD" :=
  ⟨rfl, rfl, rfl, by decide⟩

/-- C2 as amended: when `Refresh` fails with a parse or extraction error,
the three cache entries and the animation key are left unchanged — so a
subsequent `Generate` still signs with the previously generated animation
key — but the in-place fields `homePageHTML`, `onDemandFileHTML`, `key`,
`keyBytes`, `rowIndex` and `keyBytesIndices` may already have been
overwritten up to the point of failure. -/
theorem refresh_failure_preserves_caches (env : TxEnv) (cfg : ProdConfigT) (now : Int)
    (s s' : GenState) (e : String) (h : Refresh env cfg now s = (s', some e)) :
    s'.htmlDataCache = s.htmlDataCache ∧ s'.animationCache = s.animationCache ∧
    s'.verificationCache = s.verificationCache ∧ s'.animationKey = s.animationKey :=
  refresh_fail_core env cfg now s s' e h

/-- Witness for `refresh_failure_preserves_caches` at a concrete failing
refresh. -/
theorem refresh_failure_preserves_caches_witness :
    Refresh envNoMarker cfg0 0 stOld =
      ((Refresh envNoMarker cfg0 0 stOld).1,
       some ("failed to fetch Twitter data: ondemand file URL not found in home page")) ∧
    ((Refresh envNoMarker cfg0 0 stOld).1.htmlDataCache = stOld.htmlDataCache ∧
     (Refresh envNoMarker cfg0 0 stOld).1.animationCache = stOld.animationCache ∧
     (Refresh envNoMarker cfg0 0 stOld).1.verificationCache = stOld.verificationCache ∧
     (Refresh envNoMarker cfg0 0 stOld).1.animationKey = stOld.animationKey) :=
  ⟨rfl, refresh_failure_preserves_caches envNoMarker cfg0 0 stOld
    (Refresh envNoMarker cfg0 0 stOld).1
    "failed to fetch Twitter data: ondemand file URL not found in home page" rfl⟩

/- ===================== C7: TTL invariant ===================== -/

/-- A successful `initialize` establishes the TTL invariant. -/
theorem initialize_ok_inv (env : TxEnv) (cfg : ProdConfigT) (now : Int)
    (s s' : GenState) (h : initializeGen env cfg now s = (s', none)) :
    cacheInvariant cfg s' := by
  rw [initializeGen] at h
  rcases hf : fetchTwitterData env s with ⟨s1, e1⟩
  rw [hf] at h
  cases e1 with
  | some e1v =>
      dsimp only at h
      injection h with h1 h2
      exact Option.noConfusion h2
  | none =>
      dsimp only at h
      rcases ha : extractAlgorithmData env s1 with ⟨s2, e2⟩
      rw [ha] at h
      cases e2 with
      | some e2v =>
          dsimp only at h
          injection h with h1 h2
          exact Option.noConfusion h2
      | none =>
          dsimp only at h
          injection h with h1 h2
          subst h1
          exact ⟨rfl, rfl, rfl⟩

/-- `Refresh` preserves the TTL invariant whatever its outcome: on success
it rebuilds all three entries, on failure it leaves them untouched. -/
theorem refresh_any_inv (env : TxEnv) (cfg : ProdConfigT) (now : Int) (s : GenState)
    (hInv : cacheInvariant cfg s) : cacheInvariant cfg (Refresh env cfg now s).1 := by
  rcases h2 : Refresh env cfg now s with ⟨s', oe⟩
  cases oe with
  | none => exact refresh_ok_inv env cfg now s s' h2
  | some e =>
      have hc := refresh_fail_core env cfg now s s' e h2
      refine ⟨?_, ?_, ?_⟩
      · rw [hc.1]; exact hInv.1
      · rw [hc.2.1]; exact hInv.2.1
      · rw [hc.2.2.1]; exact hInv.2.2

/-- Counterexample to C7: starting from a state satisfying the TTL
invariant, a `ForceRefresh` whose inner refresh fails (here: no ondemand
marker) leaves the cache entries with `expires_at = now - 1h` but the old
`created_at`, violating `expires_at = created_at + configured_TTL`. -/
theorem force_refresh_invariant_cex :
    cacheInvariant cfg0 stOld ∧
    ((ForceRefresh envNoMarker cfg0 100 stOld).2).isSome = true ∧
    ¬ cacheInvariant cfg0 (ForceRefresh envNoMarker cfg0 100 stOld).1 := by
  refine ⟨by decide, rfl, by decide⟩

/-- C7 as amended: the invariant `expires_at = created_at + TTL` (with the
verification entry reusing the HTML-data lifetime, as the source does)
holds after a successful `initialize`, is preserved by `Refresh` (success
or failure), by `updateCachesWithFreshData` and by `Generate`, and holds
after a *successful* `ForceRefresh`; a ForceRefresh whose inner refresh
fails violates it (see the counterexample). -/
theorem ttl_invariant_spec (env : TxEnv) (cfg : ProdConfigT) (now : Int)
    (method path : String) (s si sf : GenState)
    (hInv : cacheInvariant cfg s)
    (hInit : initializeGen env cfg now s = (si, none))
    (hForce : ForceRefresh env cfg now s = (sf, none)) :
    cacheInvariant cfg si ∧
    cacheInvariant cfg (Refresh env cfg now s).1 ∧
    cacheInvariant cfg (updateCachesWithFreshData cfg now s) ∧
    cacheInvariant cfg sf ∧
    cacheInvariant cfg (Generate env cfg now method path s).1 := by
  refine ⟨initialize_ok_inv env cfg now s si hInit, refresh_any_inv env cfg now s hInv,
    ⟨rfl, rfl, rfl⟩, ?_, ?_⟩
  · rw [ForceRefresh] at hForce
    exact refresh_ok_inv env cfg now _ sf hForce
  · by_cases hn : needsRefresh now s
    · cases hr : env.randRead with
      | error e =>
          simp only [Generate, hn, if_true, hr]
          exact refresh_any_inv env cfg now s hInv
      | ok r =>
          simp only [Generate, hn, if_true, hr]
          exact refresh_any_inv env cfg now s hInv
    · cases hr : env.randRead with
      | error e =>
          simp only [Generate, hn, if_false, hr]
          exact hInv
      | ok r =>
          simp only [Generate, hn, if_false, hr]
          exact hInv

/-- Witness for `ttl_invariant_spec` at a concrete fully successful
environment. -/
theorem ttl_invariant_spec_witness :
    cacheInvariant cfg0 stOld ∧
    initializeGen envSuccess cfg0 50 stOld = ((initializeGen envSuccess cfg0 50 stOld).1, none) ∧
    ForceRefresh envSuccess cfg0 50 stOld = ((ForceRefresh envSuccess cfg0 50 stOld).1, none) ∧
    (cacheInvariant cfg0 (initializeGen envSuccess cfg0 50 stOld).1 ∧
     cacheInvariant cfg0 (Refresh envSuccess cfg0 50 stOld).1 ∧
     cacheInvariant cfg0 (updateCachesWithFreshData cfg0 50 stOld) ∧
     cacheInvariant cfg0 (ForceRefresh envSuccess cfg0 50 stOld).1 ∧
     cacheInvariant cfg0 (Generate envSuccess cfg0 50 "GET" "/p" stOld).1) :=
  ⟨by decide, rfl, rfl,
   ttl_invariant_spec envSuccess cfg0 50 "GET" "/p" stOld
     (initializeGen envSuccess cfg0 50 stOld).1 (ForceRefresh envSuccess cfg0 50 stOld).1
     (by decide) rfl rfl⟩

/- ===================== C10: Generate error behavior ===================== -/

/-- Counterexample to C10: when the refresh triggered by `Generate` fails
during animation-key generation (here: the freshly extracted verification
key decodes to only 3 bytes), the transaction ID is built from the *fresh*
`keyBytes = [1,1,1]` written by the failed refresh, not from the previously
cached `[9,9,9]`, and differs from the ID those would produce. -/
theorem generate_stale_keybytes_cex :
    needsRefresh 30000 stOld = true ∧
    (Refresh envAnimFail cfg0 30000 stOld).2 =
      some ("failed to extract algorithm data: failed to generate animation key: failed to extract animation frames: key_bytes too short for frame selection") ∧
    (Refresh envAnimFail cfg0 30000 stOld).1.keyBytes = [1, 1, 1] ∧
    stOld.keyBytes = [9, 9, 9] ∧
    (Generate envAnimFail cfg0 30000 "GET" "/p" stOld).2 =
      Except.ok (generateUniqueTransactionID envAnimFail.sha "GET" "/p" envAnimFail.nowMicro
        "oldak" [1, 1, 1] 0) ∧
    generateUniqueTransactionID envAnimFail.sha "GET" "/p" envAnimFail.nowMicro "oldak" [1, 1, 1] 0 ≠
      generateUniqueTransactionID envAnimFail.sha "GET" "/p" envAnimFail.nowMicro "oldak" [9, 9, 9] 0 :=
  ⟨rfl, rfl, rfl, rfl, rfl, by decide⟩

/-- C10 as amended: `Generate` fails exactly when the OS RNG read fails
(and then with the wrapped RNG error); when `needsRefresh` holds and the
triggered `Refresh` fails, the refresh error is silently discarded and a
transaction ID is still produced — from the key bytes and animation key
left by the failed refresh attempt, whose animation key always equals the
previously cached one (but whose key bytes may be freshly extracted, see
the counterexample). -/
theorem generate_spec (env : TxEnv) (cfg : ProdConfigT) (now : Int) (method path : String)
    (s : GenState) (r : Nat) (e msg : String)
    (hneed : needsRefresh now s = true)
    (hfail : (Refresh env cfg now s).2 = some e)
    (hrand : env.randRead = Except.ok r) :
    (Generate env cfg now method path s).2 =
      Except.ok (generateUniqueTransactionID env.sha method path env.nowMicro
        (Refresh env cfg now s).1.animationKey (Refresh env cfg now s).1.keyBytes r) ∧
    (Refresh env cfg now s).1.animationKey = s.animationKey ∧
    (Generate { env with randRead := Except.error msg } cfg now method path s).2 =
      Except.error ("failed to generate random number: " ++ msg) := by
  refine ⟨?_, ?_, ?_⟩
  · simp only [Generate, hneed, if_true, hrand]
  · rcases h2 : Refresh env cfg now s with ⟨s', oe⟩
    rw [h2] at hfail
    dsimp only at hfail
    subst hfail
    exact (refresh_fail_core env cfg now s s' e h2).2.2.2
  · simp only [Generate, hneed, if_true]

/-- Witness for `generate_spec` at a concrete failing refresh and
successful RNG read. -/
theorem generate_spec_witness :
    needsRefresh 30000 stOld = true ∧
    (Refresh envAnimFail cfg0 30000 stOld).2 =
      some ("failed to extract algorithm data: failed to generate animation key: failed to extract animation frames: key_bytes too short for frame selection") ∧
    envAnimFail.randRead = Except.ok 0 ∧
    ((Generate envAnimFail cfg0 30000 "GET" "/p" stOld).2 =
       Except.ok (generateUniqueTransactionID envAnimFail.sha "GET" "/p" envAnimFail.nowMicro
         (Refresh envAnimFail cfg0 30000 stOld).1.animationKey
         (Refresh envAnimFail cfg0 30000 stOld).1.keyBytes 0) ∧
     (Refresh envAnimFail cfg0 30000 stOld).1.animationKey = stOld.animationKey ∧
     (Generate { envAnimFail with randRead := Except.error "boom" } cfg0 30000 "GET" "/p" stOld).2 =
       Except.error ("failed to generate random number: boom")) :=
  ⟨rfl, rfl, rfl,
   generate_spec envAnimFail cfg0 30000 "GET" "/p" stOld 0
     "failed to extract algorithm data: failed to generate animation key: failed to extract animation frames: key_bytes too short for frame selection"
     "boom" rfl rfl rfl⟩

/- ===================== C8: retry loop ===================== -/

/-- The retry loop executes the operation at most `fuel` times. -/
theorem retryLoop_execs_le {E R : Type} (op : Nat → Except E R) (ctxE cancel : Nat → Bool)
    (maxA : Nat) : ∀ fuel attempt last,
    (retryLoop op ctxE cancel maxA fuel attempt last).2 ≤ fuel := by
  intro fuel
  induction fuel with
  | zero => intro attempt last; simp [retryLoop]
  | succ fuel ih =>
      intro attempt last
      rw [retryLoop]
      cases op attempt with
      | ok r => simp
      | error e =>
          dsimp only
          split
          · simp
          · split
            · simp
            · dsimp only
              have := ih (attempt + 1) (some e)
              omega

/-- With an always-failing operation and no cancellation, the loop runs its
full fuel and exits carrying the last attempt's error. -/
theorem retryLoop_exhaust {E R : Type} (op : Nat → Except E R) (ctxE cancel : Nat → Bool)
    (maxA : Nat) (f : Nat → E)
    (hop : ∀ n, op n = Except.error (f n)) (hctx : ∀ n, ctxE n = false)
    (hcan : ∀ n, cancel n = false) :
    ∀ fuel attempt last, fuel + attempt = maxA + 1 → 1 ≤ attempt → attempt ≤ maxA →
      retryLoop op ctxE cancel maxA fuel attempt last =
        (RetryOutcome.exhausted (some (f maxA)), fuel) := by
  intro fuel
  induction fuel with
  | zero => intro attempt last h1 h2 h3; omega
  | succ fuel ih =>
      intro attempt last h1 h2 h3
      rw [retryLoop, hop attempt]
      dsimp only
      split
      · next hcond =>
          simp only [hctx attempt, Bool.or_false, decide_eq_true_eq] at hcond
          have ha : attempt = maxA := le_antisymm h3 hcond
          have hf : fuel = 0 := by omega
          subst ha
          subst hf
          rfl
      · next hcond =>
          simp only [hctx attempt, Bool.or_false, decide_eq_true_eq] at hcond
          split
          · next hc2 => rw [hcan attempt] at hc2; exact absurd hc2 (by simp)
          · rw [ih (attempt + 1) (some (f attempt)) (by omega) (by omega) (by omega)]

/-- The execution count of `executeWithRetry` is the loop's count. -/
theorem executeWithRetry_execs {E R : Type} (en : Bool) (m : Nat) (op : Nat → Except E R)
    (c1 c2 : Nat → Bool) :
    (executeWithRetry en m op c1 c2).2 =
      (retryLoop op c1 c2 (if en then m + 1 else 1) (if en then m + 1 else 1) 1 none).2 := by
  rw [executeWithRetry]
  rcases h : retryLoop op c1 c2 (if en then m + 1 else 1) (if en then m + 1 else 1) 1 none
    with ⟨o, n⟩
  cases o <;> rfl

/-- An exhausted loop surfaces the wrapped error naming the attempt count. -/
theorem executeWithRetry_exhausted {E R : Type} (en : Bool) (m : Nat) (op : Nat → Except E R)
    (c1 c2 : Nat → Bool) (le : Option E) (n : Nat)
    (h : retryLoop op c1 c2 (if en then m + 1 else 1) (if en then m + 1 else 1) 1 none =
      (RetryOutcome.exhausted le, n)) :
    executeWithRetry en m op c1 c2 =
      (Except.error (RetryError.requestFailedAfter (if en then m + 1 else 1) le), n) := by
  rw [executeWithRetry]
  rw [h]

/-- C8: when retry is disabled the operation runs exactly once and its
first error is surfaced (wrapped with attempt count 1); when retry is
enabled a failing operation runs at most `max_retries + 1` times, and on
exhaustion the returned error wraps the last underlying error and names the
attempt count `max_retries + 1`. -/
theorem executeWithRetry_spec {E R : Type} (m : Nat) (op op2 : Nat → Except E R)
    (ctxE cancel ctx2 can2 : Nat → Bool) (f : Nat → E)
    (hop : ∀ n, op n = Except.error (f n))
    (hctx : ∀ n, ctxE n = false) (hcan : ∀ n, cancel n = false) :
    (executeWithRetry false m op2 ctx2 can2).2 = 1 ∧
    executeWithRetry false m op ctxE cancel =
      (Except.error (RetryError.requestFailedAfter 1 (some (f 1))), 1) ∧
    (executeWithRetry true m op2 ctx2 can2).2 ≤ m + 1 ∧
    executeWithRetry true m op ctxE cancel =
      (Except.error (RetryError.requestFailedAfter (m + 1) (some (f (m + 1)))), m + 1) := by
  refine ⟨?_, ?_, ?_, ?_⟩
  · rw [executeWithRetry_execs]
    show (retryLoop op2 ctx2 can2 1 1 1 none).2 = 1
    rw [retryLoop]
    cases hop2 : op2 1 with
    | ok r => rfl
    | error e =>
        dsimp only
        split
        · rfl
        · next hcond => simp at hcond
  · exact executeWithRetry_exhausted false m op ctxE cancel (some (f 1)) 1
      (retryLoop_exhaust op ctxE cancel 1 f hop hctx hcan 1 1 none (by omega) (by omega)
        (by omega))
  · rw [executeWithRetry_execs]
    exact retryLoop_execs_le op2 ctx2 can2 _ _ 1 none
  · exact executeWithRetry_exhausted true m op ctxE cancel (some (f (m + 1))) (m + 1)
      (retryLoop_exhaust op ctxE cancel (m + 1) f hop hctx hcan (m + 1) 1 none (by omega)
        (by omega) (by omega))

/-- Witness for `executeWithRetry_spec` with a 3-retry configuration. -/
theorem executeWithRetry_spec_witness :
    (executeWithRetry (E := String) (R := Nat) false 3 (fun _ => Except.ok 0)
      (fun _ => false) (fun _ => false)).2 = 1 ∧
    executeWithRetry (E := String) (R := Nat) false 3 (fun _ => Except.error ("err"))
      (fun _ => false) (fun _ => false) =
      (Except.error (RetryError.requestFailedAfter 1 (some "err")), 1) ∧
    (executeWithRetry (E := String) (R := Nat) true 3 (fun _ => Except.ok 0)
      (fun _ => false) (fun _ => false)).2 ≤ 3 + 1 ∧
    executeWithRetry (E := String) (R := Nat) true 3 (fun _ => Except.error ("err"))
      (fun _ => false) (fun _ => false) =
      (Except.error (RetryError.requestFailedAfter (3 + 1) (some "err")), 3 + 1) :=
  executeWithRetry_spec 3 (fun _ => Except.error ("err")) (fun _ => Except.ok 0)
    (fun _ => false) (fun _ => false) (fun _ => false) (fun _ => false) (fun _ => "err")
    (fun _ => rfl) (fun _ => rfl) (fun _ => rfl)

/- ===================== C9: XPFF header ===================== -/

/-- Hex encoding produces two characters per byte. -/
theorem hexEncode_length : ∀ bytes : List Nat, (hexEncode bytes).length = 2 * bytes.length := by
  intro bytes
  induction bytes with
  | nil => rfl
  | cons b rest ih =>
      rw [hexEncode] at ih ⊢
      simp only [List.flatMap_cons, List.length_append, List.length_cons, List.length_nil, ih]
      omega

/-- Hex digits of 4-bit values are lowercase hex characters. -/
theorem hexChar_mem : ∀ n < 16, hexChar n ∈ ("0123456789abcdef").toList := by decide

/-- C9: `GenerateXPFF` outputs the lowercase hex encoding of
`nonce ∥ ciphertext-with-tag` with the 12-byte nonce first, the key being
the SHA-256 digest of the ASCII base-key literal concatenated with the
guest ID, and the plaintext the compact navigator-properties JSON; the
first 24 output characters encode the nonce, so a 12-zero-byte nonce makes
them all '0'. -/
theorem generateXPFF_spec (sha : String → List Nat)
    (sealFn : List Nat → List Nat → String → List Nat) (nonce : List Nat) (nowMilli : Int)
    (guestID userAgent : String)
    (hsha : (sha (xpffBaseKey ++ guestID)).length = 32)
    (hnonce : nonce.length = 12)
    (hseal : ∀ b ∈ nonce ++ sealFn (sha (xpffBaseKey ++ guestID)) nonce
      (payloadJSON userAgent nowMilli), b < 256) :
    GenerateXPFF sha sealFn (Except.ok nonce) nowMilli guestID userAgent =
      Except.ok (String.mk (hexEncode (nonce ++
        sealFn (sha (xpffBaseKey ++ guestID)) nonce (payloadJSON userAgent nowMilli)))) ∧
    (hexEncode (nonce ++
        sealFn (sha (xpffBaseKey ++ guestID)) nonce (payloadJSON userAgent nowMilli))).take 24 =
      hexEncode nonce ∧
    (∀ c ∈ hexEncode (nonce ++
        sealFn (sha (xpffBaseKey ++ guestID)) nonce (payloadJSON userAgent nowMilli)),
      c ∈ ("0123456789abcdef").toList) ∧
    hexEncode (List.replicate 12 0) = List.replicate 24 '0' := by
  refine ⟨?_, ?_, ?_, ?_⟩
  · have hk : (sha (xpffBaseKey ++ guestID)).length = 16 ∨
        (sha (xpffBaseKey ++ guestID)).length = 24 ∨
        (sha (xpffBaseKey ++ guestID)).length = 32 := Or.inr (Or.inr hsha)
    rw [GenerateXPFF, generateEncryptionKey, encryptAESGCM, if_pos hk]
  · rw [hexEncode, List.flatMap_append, ← hexEncode, ← hexEncode]
    have h24 : (hexEncode nonce).length = 24 := by rw [hexEncode_length, hnonce]
    rw [← h24, List.take_left]
  · intro c hc
    rw [hexEncode] at hc
    rcases List.mem_flatMap.mp hc with ⟨b, hb, hcb⟩
    have hb' : b < 256 := hseal b hb
    rcases List.mem_cons.mp hcb with h | hcb2
    · exact h ▸ hexChar_mem (b / 16) (by omega)
    · rcases List.mem_cons.mp hcb2 with h | h
      · exact h ▸ hexChar_mem (b % 16) (by omega)
      · simp at h
  · rfl

/-- Witness for `generateXPFF_spec` with a zero nonce: the first 24 output
characters are all '0'. -/
theorem generateXPFF_spec_witness :
    GenerateXPFF (fun _ => List.replicate 32 0) (fun _ _ _ => [255, 0])
      (Except.ok (List.replicate 12 0)) 1700000000000 "v1%3A1700000000000" "UA/1.0" =
      Except.ok (String.mk (hexEncode (List.replicate 12 0 ++
        (fun (_ _ : List Nat) (_ : String) => [255, 0])
          ((fun (_ : String) => List.replicate 32 0) (xpffBaseKey ++ "v1%3A1700000000000"))
          (List.replicate 12 0) (payloadJSON "UA/1.0" 1700000000000)))) ∧
    (hexEncode (List.replicate 12 0 ++
        (fun (_ _ : List Nat) (_ : String) => [255, 0])
          ((fun (_ : String) => List.replicate 32 0) (xpffBaseKey ++ "v1%3A1700000000000"))
          (List.replicate 12 0) (payloadJSON "UA/1.0" 1700000000000))).take 24 =
      hexEncode (List.replicate 12 0) ∧
    (∀ c ∈ hexEncode (List.replicate 12 0 ++
        (fun (_ _ : List Nat) (_ : String) => [255, 0])
          ((fun (_ : String) => List.replicate 32 0) (xpffBaseKey ++ "v1%3A1700000000000"))
          (List.replicate 12 0) (payloadJSON "UA/1.0" 1700000000000)),
      c ∈ ("0123456789abcdef").toList) ∧
    hexEncode (List.replicate 12 0) = List.replicate 24 '0' :=
  generateXPFF_spec (fun _ => List.replicate 32 0) (fun _ _ _ => [255, 0])
    (List.replicate 12 0) 1700000000000 "v1%3A1700000000000" "UA/1.0"
    (by simp) (by simp) (by decide)
